import Mathlib

/-!
Shallow embedding of the televoica speech-to-text service: the engine
(`televoica/core/engine.py`), the two providers (`televoica/core/providers.py`),
the configuration loader (`televoica/config/settings.py`) and the Telegram
request handler (`televoica/bot/telegram_bot.py`).

The filesystem is modelled as a list of existing paths (downloads cons a path,
`unlink` erases it); audio bytes are `List Nat`; Python exceptions become
`Except String`; the external backends (Whisper model, Google client, Telegram
network) are abstracted as function parameters or outcome parameters, exactly
at the library boundary.
-/

namespace Televoica

/-! ## Engine (`televoica/core/engine.py`) -/

inductive EngineError
  | fileNotFound (path : String)
  | backend (msg : String)
deriving DecidableEq, Repr

/-- `SpeechToTextEngine.transcribe_file`: check existence, then delegate to the
active provider's `transcribe`. `fileExists` models `Path.exists()`;
`providerTranscribe` models `self.provider.transcribe`. -/
def transcribe_file (fileExists : String → Bool)
    (providerTranscribe : String → Except EngineError String)
    (audio_file : String) : Except EngineError String :=
  if fileExists audio_file then
    providerTranscribe audio_file
  else
    .error (.fileNotFound audio_file)

/-! ## Providers (`televoica/core/providers.py`) -/

/-- Google Cloud `RecognitionConfig.AudioEncoding` values used by the source. -/
inductive AudioEncoding
  | OGG_OPUS
  | MP3
  | LINEAR16
deriving DecidableEq, Repr

/-- The `encoding_map` dictionary in `GoogleCloudSTTProvider.transcribe_bytes`. -/
def encoding_map : List (String × AudioEncoding) :=
  [("ogg", .OGG_OPUS), ("mp3", .MP3), ("wav", .LINEAR16)]

/-- `encoding_map.get(format, speech.RecognitionConfig.AudioEncoding.OGG_OPUS)`. -/
def encodingFor (format : String) : AudioEncoding :=
  (encoding_map.lookup format).getD .OGG_OPUS

/-- The recognition request `GoogleCloudSTTProvider.transcribe_bytes` builds
(`RecognitionConfig` plus `RecognitionAudio` content). -/
structure RecognitionRequest where
  encoding : AudioEncoding
  language_code : String
  content : List Nat
deriving DecidableEq, Repr

/-- `GoogleCloudSTTProvider.transcribe_bytes`: the request sent to the backend. -/
def google_transcribe_bytes (language_code : String) (audio_bytes : List Nat)
    (format : String) : RecognitionRequest :=
  { encoding := encodingFor format
    language_code := language_code
    content := audio_bytes }

/-- `GoogleCloudSTTProvider.transcribe`: read the file's bytes and forward to
`transcribe_bytes` with the signature default format `"ogg"`. -/
def google_transcribe (language_code : String) (readFile : String → List Nat)
    (audio_file : String) : RecognitionRequest :=
  google_transcribe_bytes language_code (readFile audio_file) "ogg"

/-- Name of the temporary file staged by `WhisperProvider.transcribe_bytes`
(`tempfile.NamedTemporaryFile` with suffix a dot followed by the format hint);
`tmpBase` is the fresh base name the tempfile module chooses. -/
def whisper_temp_path (tmpBase format : String) : String :=
  tmpBase ++ "." ++ format

/-- `WhisperProvider.transcribe_bytes`: write bytes to a named temporary file,
run `self.transcribe` on it, and unlink the file in a `finally` block.
Returns (final filesystem, list of temporary files created, result);
`inner` models `self.transcribe`, whose success or raised exception is the
call's outcome either way. -/
def whisper_transcribe_bytes (fs : List String) (tmpBase : String)
    (format : String) (inner : String → Except String String) :
    List String × List String × Except String String :=
  let temp_path := whisper_temp_path tmpBase format
  let fs1 := temp_path :: fs
  let result := inner temp_path
  (fs1.erase temp_path, [temp_path], result)

/-- The lazily acquired backend handle of a provider (`self._model` of
`WhisperProvider`, `self._client` of `GoogleCloudSTTProvider`):
`unloaded` is Python `None`. -/
inductive BackendHandle
  | unloaded
  | loaded (handle : Nat)
deriving DecidableEq, Repr

/-- `WhisperProvider._load_model`: load only when `self._model is None`;
`loadResult` models `whisper.load_model` (its import or load failure raises). -/
def load_model (st : BackendHandle) (loadResult : Except String Nat) :
    Except String BackendHandle :=
  match st with
  | .unloaded =>
    match loadResult with
    | .ok h => .ok (.loaded h)
    | .error e => .error e
  | .loaded h => .ok (.loaded h)

/-- `GoogleCloudSTTProvider._load_client`: create the client only when
`self._client is None`; `clientResult` models `speech.SpeechClient()`. -/
def load_client (st : BackendHandle) (clientResult : Except String Nat) :
    Except String BackendHandle :=
  match st with
  | .unloaded =>
    match clientResult with
    | .ok h => .ok (.loaded h)
    | .error e => .error e
  | .loaded h => .ok (.loaded h)

/-- A transcription call on a provider, as it affects the backend handle:
both `transcribe` and `transcribe_bytes` begin by invoking the lazy loader,
and nothing else assigns the handle field. -/
inductive ProviderOp
  | transcribeOp (loadResult : Except String Nat)
  | transcribeBytesOp (loadResult : Except String Nat)

/-- Effect of one provider call on the handle field: the lazy loader's new
state on success, the unchanged field when the call raises. -/
def handleStep (st : BackendHandle) (op : ProviderOp) : BackendHandle :=
  match op with
  | .transcribeOp r | .transcribeBytesOp r =>
    match load_model st r with
    | .ok st2 => st2
    | .error _ => st

/-! ## Configuration (`televoica/config/settings.py`) -/

/-- A value stored in the dynamically typed `config_dict`. -/
inductive ConfigValue
  | str (s : String)
  | bool (b : Bool)
  | int (n : Int)
  | intList (l : List Int)
deriving DecidableEq, Repr

/-- `STTConfig` dataclass. -/
structure STTConfig where
  provider : String := "whisper"
  whisper_model : String := "base"
  whisper_device : String := "cpu"
  whisper_language : Option String := none
  google_credentials_path : Option String := none
  google_language_code : String := "en-US"
deriving DecidableEq, Repr

/-- `TelegramConfig` dataclass. -/
structure TelegramConfig where
  enabled : Bool := false
  bot_token : Option String := none
  allowed_users : List Int := []
  max_file_size_mb : Int := 20
deriving DecidableEq, Repr

/-- `Settings` dataclass (`temp_dir` kept as a plain path string). -/
structure Settings where
  telegram_bot : Bool := false
  stt : STTConfig := {}
  telegram : TelegramConfig := {}
  log_level : String := "INFO"
  temp_dir : String := "/tmp/televoica"
deriving DecidableEq, Repr

/-- Python falsiness of `self.telegram.bot_token` (`None` or empty string). -/
def tokenMissing : Option String → Bool
  | none => true
  | some t => t == ""

/-- `Settings.__post_init__`: force `telegram.enabled` when bot mode is on and
fail construction when the token is absent or empty. The `temp_dir.mkdir`
side effect is not part of the validated value. -/
def settings_post_init (s : Settings) : Except String Settings :=
  if s.telegram_bot then
    if tokenMissing s.telegram.bot_token then
      .error "Telegram bot token is required when telegram_bot=True. Set TELEGRAM_BOT_TOKEN environment variable."
    else
      .ok { s with telegram := { s.telegram with enabled := true } }
  else
    .ok s

/-- Python `str.lower` on one character, for the ASCII range the source ever
feeds it (file suffixes, env var values). -/
def asciiLowerChar (c : Char) : Char :=
  if 'A' ≤ c ∧ c ≤ 'Z' then Char.ofNat (c.toNat + 32) else c

/-- Python `str.lower` (ASCII case folding; structural so it evaluates). -/
def asciiLower (s : String) : String :=
  String.mk (s.toList.map asciiLowerChar)

/-- The whitespace characters Python `str.strip` removes by default. -/
def isSpaceChar (c : Char) : Bool :=
  c == ' ' || c == '\t' || c == '\n' || c == '\r' || c == Char.ofNat 11 || c == Char.ofNat 12

/-- Python `str.strip` with no argument. -/
def pyStrip (s : String) : String :=
  String.mk ((s.toList.dropWhile isSpaceChar).reverse.dropWhile isSpaceChar).reverse

/-- Value of a non-empty all-digit run, `none` on anything else. -/
def digitsToNat (cs : List Char) : Option Nat :=
  if cs.isEmpty then none
  else cs.foldl
    (fun acc c => acc.bind (fun n => if c.isDigit then some (10 * n + (c.toNat - 48)) else none))
    (some 0)

/-- Python `int(s)` on an already stripped string: optional sign, digits. -/
def pyInt? (s : String) : Option Int :=
  match s.toList with
  | [] => none
  | '-' :: rest => (digitsToNat rest).map (fun n => -(n : Int))
  | '+' :: rest => (digitsToNat rest).map (fun n => (n : Int))
  | cs => (digitsToNat cs).map (fun n => (n : Int))

/-- Python `str.split(sep)` for a one-character separator. -/
def splitOnChar (sep : Char) : List Char → List (List Char)
  | [] => [[]]
  | c :: rest =>
    match splitOnChar sep rest with
    | [] => [[c]]
    | h :: t => if c == sep then [] :: h :: t else (c :: h) :: t

/-- Python `str.split(sep)` on strings. -/
def pySplit (s : String) (sep : Char) : List String :=
  (splitOnChar sep s.toList).map String.mk

/-- `pathlib.PurePath.suffix`: the final component's extension, including the
dot; empty when there is no dot, when the only dot leads (hidden files), or
when the dot trails. -/
def pathSuffix (p : String) : String :=
  let cs := (p.toList.reverse.takeWhile (fun c => c != '/')).reverse
  let after := cs.reverse.takeWhile (fun c => c != '.')
  if after.length = cs.length then ""
  else if after.length = 0 then ""
  else if cs.length - after.length - 1 = 0 then ""
  else String.mk ('.' :: after.reverse)

/-- A config file handed to `load_config`: its path and the mapping the
third-party JSON/YAML parser would return for its text. -/
structure ConfigFile where
  path : String
  contents : List (String × ConfigValue)
deriving DecidableEq, Repr

/-- `_load_config_file`: dispatch on the lowercased extension, fail on any
other extension. -/
def load_config_file (f : ConfigFile) : Except String (List (String × ConfigValue)) :=
  let sfx := asciiLower (pathSuffix f.path)
  if sfx == ".json" then .ok f.contents
  else if sfx == ".yaml" || sfx == ".yml" then .ok f.contents
  else .error ("Unsupported config file format: " ++ sfx)

/-- Python truthiness of `os.getenv(k)`: set and non-empty. -/
def getenvTruthy (env : String → Option String) (k : String) : Bool :=
  match env k with
  | none => false
  | some s => s != ""

/-- `int(...)` on one allow-list entry or the size override. -/
def parseInt (s : String) : Except String Int :=
  match pyInt? s with
  | some n => .ok n
  | none => .error ("invalid literal for int() with base 10: " ++ s)

/-- The allow-list comprehension in `_load_from_env`: split on commas, drop
entries that are empty after stripping, parse each remaining entry. -/
def parse_allowed_users (users_str : String) : Except String (List Int) :=
  ((pySplit users_str ',').filter (fun uid => pyStrip uid != "")).mapM
    (fun uid => parseInt (pyStrip uid))

/-- `_load_from_env`: one entry per set-and-non-empty environment variable;
`env` models `os.getenv`, `pfx` the `env_prefix` argument. -/
def load_from_env (env : String → Option String) (pfx : String) :
    Except String (List (String × ConfigValue)) := do
  let mut config : List (String × ConfigValue) := []
  if getenvTruthy env (pfx ++ "TELEGRAM_BOT") then
    config := config ++ [("telegram_bot",
      .bool (["true", "1", "yes"].contains (asciiLower ((env (pfx ++ "TELEGRAM_BOT")).getD ""))))]
  if getenvTruthy env (pfx ++ "LOG_LEVEL") then
    config := config ++ [("log_level", .str ((env (pfx ++ "LOG_LEVEL")).getD "INFO"))]
  if getenvTruthy env (pfx ++ "PROVIDER") then
    config := config ++ [("stt_provider", .str ((env (pfx ++ "PROVIDER")).getD "whisper"))]
  if getenvTruthy env (pfx ++ "WHISPER_MODEL") then
    config := config ++ [("whisper_model", .str ((env (pfx ++ "WHISPER_MODEL")).getD "base"))]
  if getenvTruthy env (pfx ++ "WHISPER_DEVICE") then
    config := config ++ [("whisper_device", .str ((env (pfx ++ "WHISPER_DEVICE")).getD "cpu"))]
  if getenvTruthy env (pfx ++ "WHISPER_LANGUAGE") then
    config := config ++ [("whisper_language", .str ((env (pfx ++ "WHISPER_LANGUAGE")).getD ""))]
  if getenvTruthy env (pfx ++ "GOOGLE_CREDENTIALS_PATH") then
    config := config ++ [("google_credentials_path", .str ((env (pfx ++ "GOOGLE_CREDENTIALS_PATH")).getD ""))]
  if getenvTruthy env (pfx ++ "GOOGLE_LANGUAGE_CODE") then
    config := config ++ [("google_language_code", .str ((env (pfx ++ "GOOGLE_LANGUAGE_CODE")).getD "en-US"))]
  if getenvTruthy env "TELEGRAM_BOT_TOKEN" then
    config := config ++ [("telegram_bot_token", .str ((env "TELEGRAM_BOT_TOKEN").getD ""))]
  if getenvTruthy env "TELEGRAM_ALLOWED_USERS" then
    let users ← parse_allowed_users ((env "TELEGRAM_ALLOWED_USERS").getD "")
    config := config ++ [("telegram_allowed_users", .intList users)]
  if getenvTruthy env "TELEGRAM_MAX_FILE_SIZE_MB" then
    let n ← parseInt ((env "TELEGRAM_MAX_FILE_SIZE_MB").getD "20")
    config := config ++ [("telegram_max_file_size_mb", .int n)]
  if getenvTruthy env (pfx ++ "TEMP_DIR") then
    config := config ++ [("temp_dir", .str ((env (pfx ++ "TEMP_DIR")).getD "/tmp/televoica"))]
  return config

/-- `config_dict.update(env_config)`: `List.lookup` takes the first binding,
so placing `upd` in front makes its entries shadow `base`. -/
def dictUpdate (base upd : List (String × ConfigValue)) : List (String × ConfigValue) :=
  upd ++ base

/-- `config_dict.get(k, dflt)` where a string is expected; a stored value of
another type is treated as absent (the source never mixes types per key). -/
def getStr (cfg : List (String × ConfigValue)) (k dflt : String) : String :=
  match cfg.lookup k with
  | some (.str s) => s
  | _ => dflt

/-- `config_dict.get(k)` for the optional string keys. -/
def getOptStr (cfg : List (String × ConfigValue)) (k : String) : Option String :=
  match cfg.lookup k with
  | some (.str s) => some s
  | _ => none

/-- `config_dict.get(k, dflt)` where a boolean is expected. -/
def getBool (cfg : List (String × ConfigValue)) (k : String) (dflt : Bool) : Bool :=
  match cfg.lookup k with
  | some (.bool b) => b
  | _ => dflt

/-- `config_dict.get(k, dflt)` where an integer is expected. -/
def getInt (cfg : List (String × ConfigValue)) (k : String) (dflt : Int) : Int :=
  match cfg.lookup k with
  | some (.int n) => n
  | _ => dflt

/-- `config_dict.get(k, dflt)` where an integer list is expected. -/
def getIntList (cfg : List (String × ConfigValue)) (k : String) (dflt : List Int) : List Int :=
  match cfg.lookup k with
  | some (.intList l) => l
  | _ => dflt

/-- `load_config`: optional file layer, then environment layer (which
overrides it), then the `Settings` construction with built-in defaults;
constructing the dataclass runs `__post_init__`. -/
def load_config (config_file : Option ConfigFile) (fileExists : String → Bool)
    (env : String → Option String) (pfx : String) : Except String Settings := do
  let fileCfg ← match config_file with
    | some f => if fileExists f.path then load_config_file f else pure []
    | none => pure []
  let envCfg ← load_from_env env pfx
  let config_dict := dictUpdate fileCfg envCfg
  settings_post_init
    { telegram_bot := getBool config_dict "telegram_bot" false
      log_level := getStr config_dict "log_level" "INFO"
      temp_dir := getStr config_dict "temp_dir" "/tmp/televoica"
      stt :=
        { provider := getStr config_dict "stt_provider" "whisper"
          whisper_model := getStr config_dict "whisper_model" "base"
          whisper_device := getStr config_dict "whisper_device" "cpu"
          whisper_language := getOptStr config_dict "whisper_language"
          google_credentials_path := getOptStr config_dict "google_credentials_path"
          google_language_code := getStr config_dict "google_language_code" "en-US" }
      telegram :=
        { enabled := getBool config_dict "telegram_bot" false
          bot_token := getOptStr config_dict "telegram_bot_token"
          allowed_users := getIntList config_dict "telegram_allowed_users" []
          max_file_size_mb := getInt config_dict "telegram_max_file_size_mb" 20 } }

/-! ## Telegram request handler (`televoica/bot/telegram_bot.py`) -/

/-- The fields of `update.message.voice` the handler reads. -/
structure VoiceMessage where
  file_id : String
  file_size : Int
deriving DecidableEq, Repr

/-- The fields of `update.message.audio` the handler reads;
`file_name = none` models Python `None`. -/
structure AudioMessage where
  file_id : String
  file_size : Int
  file_name : Option String
deriving DecidableEq, Repr

/-- The user-visible outcome of one handler invocation (the final reply text,
by kind). -/
inductive BotReply
  | unauthorized
  | tooLarge
  | transcription (text : String)
  | noSpeech
  | processingError (msg : String)
deriving DecidableEq, Repr

/-- Outcome of the `self.engine.transcribe_file(file_path)` call inside the
handler's `try` block: a returned string or a raised exception. -/
inductive TranscriptionOutcome
  | success (text : String)
  | failure (err : String)
deriving DecidableEq, Repr

/-- `TelegramSTTBot._is_user_allowed`: empty allow-list admits everyone,
otherwise membership. -/
def is_user_allowed (allowed_users : List Int) (user_id : Int) : Bool :=
  if allowed_users.isEmpty then true
  else decide (user_id ∈ allowed_users)

/-- `self.max_file_size = settings.telegram.max_file_size_mb * 1024 * 1024`. -/
def max_file_size (max_file_size_mb : Int) : Int :=
  max_file_size_mb * 1024 * 1024

/-- The staging path a voice message is downloaded to:
`self.settings.temp_dir / (voice.file_id + ".ogg")`. -/
def staged_voice_path (temp_dir : String) (voice : VoiceMessage) : String :=
  temp_dir ++ "/" ++ voice.file_id ++ ".ogg"

/-- The extension chosen for an audio file:
`Path(audio.file_name).suffix if audio.file_name else ".mp3"`. -/
def audio_file_ext (file_name : Option String) : String :=
  match file_name with
  | some n => if n == "" then ".mp3" else pathSuffix n
  | none => ".mp3"

/-- The staging path an audio file is downloaded to:
`self.settings.temp_dir / (audio.file_id + file_ext)`. -/
def staged_audio_path (temp_dir : String) (audio : AudioMessage) : String :=
  temp_dir ++ "/" ++ audio.file_id ++ audio_file_ext audio.file_name

/-- `TelegramSTTBot.handle_voice` over the filesystem model: authorization
check, strict size check, download (cons the staged path), the transcription
call, then `file_path.unlink(missing_ok=True)` on the normal path only — the
`except` branch replies with the error and performs no unlink. The download
itself is taken to succeed; `outcome` is the `transcribe_file` result. -/
def handle_voice (allowed_users : List Int) (max_file_size_mb : Int)
    (temp_dir : String) (user_id : Int) (voice : VoiceMessage)
    (fs : List String) (outcome : TranscriptionOutcome) :
    List String × BotReply :=
  if !(is_user_allowed allowed_users user_id) then
    (fs, .unauthorized)
  else if voice.file_size > max_file_size max_file_size_mb then
    (fs, .tooLarge)
  else
    let file_path := staged_voice_path temp_dir voice
    let fs1 := file_path :: fs
    match outcome with
    | .success text =>
      (fs1.erase file_path, if text == "" then .noSpeech else .transcription text)
    | .failure e =>
      (fs1, .processingError e)

/-- `TelegramSTTBot.handle_audio`: same flow as `handle_voice` with the
extension derived from the declared file name. -/
def handle_audio (allowed_users : List Int) (max_file_size_mb : Int)
    (temp_dir : String) (user_id : Int) (audio : AudioMessage)
    (fs : List String) (outcome : TranscriptionOutcome) :
    List String × BotReply :=
  if !(is_user_allowed allowed_users user_id) then
    (fs, .unauthorized)
  else if audio.file_size > max_file_size max_file_size_mb then
    (fs, .tooLarge)
  else
    let file_path := staged_audio_path temp_dir audio
    let fs1 := file_path :: fs
    match outcome with
    | .success text =>
      (fs1.erase file_path, if text == "" then .noSpeech else .transcription text)
    | .failure e =>
      (fs1, .processingError e)

/-! ## Theorems -/

/-- C2: `Engine.transcribe_file` fails with `FileNotFoundError` on a
non-existent path, with a result independent of the provider (so no provider
method is consulted), and on an existing path returns exactly what the active
provider's `transcribe` returns. -/
theorem transcribe_file_contract (fileExists : String → Bool)
    (p q : String → Except EngineError String) (path : String) :
    (fileExists path = false →
      transcribe_file fileExists p path = .error (.fileNotFound path) ∧
      transcribe_file fileExists p path = transcribe_file fileExists q path) ∧
    (fileExists path = true → transcribe_file fileExists p path = p path) := by
  constructor
  · intro h
    constructor <;> simp [transcribe_file, h]
  · intro h
    simp [transcribe_file, h]

theorem transcribe_file_contract_witness :
    transcribe_file (fun f => f == "present.ogg") (fun _ => .ok "hello") "missing.ogg"
      = .error (.fileNotFound "missing.ogg") ∧
    transcribe_file (fun f => f == "present.ogg") (fun _ => .ok "hello") "present.ogg"
      = .ok "hello" :=
  ⟨((transcribe_file_contract (fun f => f == "present.ogg") (fun _ => .ok "hello")
      (fun _ => .error (.backend "e")) "missing.ogg").1 (by decide)).1,
   (transcribe_file_contract (fun f => f == "present.ogg") (fun _ => .ok "hello")
      (fun _ => .error (.backend "e")) "present.ogg").2 (by decide)⟩

/-- C9: the remote provider's format map sends `"wav"` to LINEAR16, `"mp3"`
to MP3, `"ogg"` to OGG_OPUS, and every other hint to the OGG_OPUS default. -/
theorem format_encoding_map :
    encodingFor "wav" = .LINEAR16 ∧ encodingFor "mp3" = .MP3 ∧
    encodingFor "ogg" = .OGG_OPUS ∧
    ∀ f : String, f ∉ ["ogg", "mp3", "wav"] → encodingFor f = .OGG_OPUS := by
  refine ⟨rfl, rfl, rfl, fun f hf => ?_⟩
  simp only [List.mem_cons, List.not_mem_nil, or_false, not_or] at hf
  obtain ⟨h1, h2, h3⟩ := hf
  have b1 : (f == "ogg") = false := beq_eq_false_iff_ne.mpr h1
  have b2 : (f == "mp3") = false := beq_eq_false_iff_ne.mpr h2
  have b3 : (f == "wav") = false := beq_eq_false_iff_ne.mpr h3
  simp [encodingFor, encoding_map, List.lookup, b1, b2, b3]

theorem format_encoding_map_witness :
    "xyz" ∉ ["ogg", "mp3", "wav"] ∧ encodingFor "xyz" = .OGG_OPUS :=
  ⟨by decide, format_encoding_map.2.2.2 "xyz" (by decide)⟩

/-- C10: the remote provider's file-based `transcribe` forwards the file's
bytes to `transcribe_bytes` with the default hint `"ogg"`, so the request
always carries the OGG_OPUS encoding, whatever the file's extension. -/
theorem google_transcribe_always_ogg (language_code : String)
    (readFile : String → List Nat) (audio_file : String) :
    google_transcribe language_code readFile audio_file =
      google_transcribe_bytes language_code (readFile audio_file) "ogg" ∧
    (google_transcribe language_code readFile audio_file).encoding = .OGG_OPUS ∧
    (google_transcribe language_code readFile audio_file).content = readFile audio_file :=
  ⟨rfl, rfl, rfl⟩

/-- C8: a provider's backend handle is acquired by the first successful lazy
load, and once non-null it is never reset or replaced: the loaders return the
same handle unchanged, and any sequence of transcription calls preserves it. -/
theorem backend_handle_persistence (h : Nat) :
    (∀ r, load_model (BackendHandle.loaded h) r = .ok (.loaded h)) ∧
    (∀ r, load_client (BackendHandle.loaded h) r = .ok (.loaded h)) ∧
    (∀ m, load_model .unloaded (.ok m) = .ok (.loaded m)) ∧
    (∀ ops : List ProviderOp, ops.foldl handleStep (.loaded h) = .loaded h) := by
  refine ⟨fun r => rfl, fun r => rfl, fun m => rfl, fun ops => ?_⟩
  induction ops with
  | nil => rfl
  | cons op ops ih =>
    have hstep : handleStep (BackendHandle.loaded h) op = .loaded h := by
      cases op <;> rfl
    simpa [List.foldl, hstep] using ih

/-- C3: `WhisperProvider.transcribe_bytes` with hint `"mp3"` stages exactly
one temporary file, its name ends in `.mp3`, the file is gone from the
filesystem when the call returns whatever the inner `transcribe` did
(`inner` is universally quantified over successes and raised exceptions),
and the inner result is passed through. -/
theorem whisper_transcribe_bytes_temp_cleanup (fs : List String) (tmpBase : String)
    (inner : String → Except String String)
    (hfresh : whisper_temp_path tmpBase "mp3" ∉ fs) :
    (whisper_transcribe_bytes fs tmpBase "mp3" inner).2.1 = [whisper_temp_path tmpBase "mp3"] ∧
    (∃ b, whisper_temp_path tmpBase "mp3" = b ++ ".mp3") ∧
    whisper_temp_path tmpBase "mp3" ∉ (whisper_transcribe_bytes fs tmpBase "mp3" inner).1 ∧
    (whisper_transcribe_bytes fs tmpBase "mp3" inner).2.2 = inner (whisper_temp_path tmpBase "mp3") := by
  refine ⟨rfl, ⟨tmpBase, ?_⟩, ?_, rfl⟩
  · show (tmpBase ++ ".") ++ "mp3" = tmpBase ++ ".mp3"
    rw [String.append_assoc]
    rfl
  · show whisper_temp_path tmpBase "mp3" ∉
      ((whisper_temp_path tmpBase "mp3" :: fs).erase (whisper_temp_path tmpBase "mp3"))
    rw [List.erase_cons_head]
    exact hfresh

theorem whisper_transcribe_bytes_temp_cleanup_witness :
    whisper_temp_path "/tmp/tmp42" "mp3" ∉ (["/tmp/other.ogg"] : List String) ∧
    (whisper_transcribe_bytes ["/tmp/other.ogg"] "/tmp/tmp42" "mp3"
       (fun _ => .error "decode failed")).2.1 = [whisper_temp_path "/tmp/tmp42" "mp3"] ∧
    whisper_temp_path "/tmp/tmp42" "mp3" ∉
      (whisper_transcribe_bytes ["/tmp/other.ogg"] "/tmp/tmp42" "mp3"
        (fun _ => .error "decode failed")).1 :=
  ⟨by decide,
   (whisper_transcribe_bytes_temp_cleanup ["/tmp/other.ogg"] "/tmp/tmp42"
     (fun _ => .error "decode failed") (by decide)).1,
   (whisper_transcribe_bytes_temp_cleanup ["/tmp/other.ogg"] "/tmp/tmp42"
     (fun _ => .error "decode failed") (by decide)).2.2.1⟩

/-- C1 as stated is false: at this concrete input the transcription call
raises, the handler's `except` branch replies with the error, and the staged
file is still present in the final filesystem. -/
theorem handle_voice_leaks_staged_file_on_failure :
    staged_voice_path "/tmp/televoica" ⟨"f1", 100⟩ ∈
      (handle_voice [] 20 "/tmp/televoica" 1 ⟨"f1", 100⟩ [] (.failure "boom")).1 := by
  decide

/-- C1 amended: for an authorized sender within the size limit, the staged
file is removed when `transcribe_file` returns normally (also for the
empty transcription), but when `transcribe_file` raises, the handler's
`except` branch does not remove it and the staged file remains; likewise for
the audio handler. -/
theorem staged_file_cleanup (allowed_users : List Int) (mb : Int)
    (temp_dir : String) (user_id : Int) (voice : VoiceMessage) (audio : AudioMessage)
    (fs : List String) (text e : String)
    (hauth : is_user_allowed allowed_users user_id = true)
    (hv_size : ¬ voice.file_size > max_file_size mb)
    (ha_size : ¬ audio.file_size > max_file_size mb)
    (hv_fresh : staged_voice_path temp_dir voice ∉ fs)
    (ha_fresh : staged_audio_path temp_dir audio ∉ fs) :
    staged_voice_path temp_dir voice ∉
      (handle_voice allowed_users mb temp_dir user_id voice fs (.success text)).1 ∧
    staged_voice_path temp_dir voice ∈
      (handle_voice allowed_users mb temp_dir user_id voice fs (.failure e)).1 ∧
    staged_audio_path temp_dir audio ∉
      (handle_audio allowed_users mb temp_dir user_id audio fs (.success text)).1 ∧
    staged_audio_path temp_dir audio ∈
      (handle_audio allowed_users mb temp_dir user_id audio fs (.failure e)).1 := by
  refine ⟨?_, ?_, ?_, ?_⟩ <;>
    simp [handle_voice, handle_audio, hauth, hv_size, ha_size,
      List.erase_cons_head, hv_fresh, ha_fresh]

theorem staged_file_cleanup_witness :
    staged_voice_path "/tmp/televoica" ⟨"v1", 10⟩ ∉
      (handle_voice [] 20 "/tmp/televoica" 7 ⟨"v1", 10⟩ [] (.success "hi")).1 ∧
    staged_voice_path "/tmp/televoica" ⟨"v1", 10⟩ ∈
      (handle_voice [] 20 "/tmp/televoica" 7 ⟨"v1", 10⟩ [] (.failure "err")).1 ∧
    staged_audio_path "/tmp/televoica" ⟨"a1", 10, some "s.mp3"⟩ ∉
      (handle_audio [] 20 "/tmp/televoica" 7 ⟨"a1", 10, some "s.mp3"⟩ [] (.success "hi")).1 ∧
    staged_audio_path "/tmp/televoica" ⟨"a1", 10, some "s.mp3"⟩ ∈
      (handle_audio [] 20 "/tmp/televoica" 7 ⟨"a1", 10, some "s.mp3"⟩ [] (.failure "err")).1 :=
  staged_file_cleanup [] 20 "/tmp/televoica" 7 ⟨"v1", 10⟩ ⟨"a1", 10, some "s.mp3"⟩ [] "hi" "err"
    (by decide) (by decide) (by decide) (by decide) (by decide)

/-- C5: with bot mode on, a `None` or empty token makes `Settings`
construction fail in `__post_init__` (pure validation, before any network
interaction); a non-empty token makes it succeed with `telegram.enabled`
forced to true. -/
theorem settings_token_validation (s : Settings) :
    (∀ o : Option String, tokenMissing o = true ↔ (o = none ∨ o = some "")) ∧
    (s.telegram_bot = true → tokenMissing s.telegram.bot_token = true →
      settings_post_init s = .error "Telegram bot token is required when telegram_bot=True. Set TELEGRAM_BOT_TOKEN environment variable.") ∧
    (s.telegram_bot = true → tokenMissing s.telegram.bot_token = false →
      settings_post_init s = .ok { s with telegram := { s.telegram with enabled := true } }) := by
  refine ⟨fun o => ?_, fun hb hm => ?_, fun hb hm => ?_⟩
  · cases o with
    | none => simp [tokenMissing]
    | some t => simp [tokenMissing]
  · simp [settings_post_init, hb, hm]
  · simp [settings_post_init, hb, hm]

theorem settings_token_validation_witness :
    settings_post_init { telegram_bot := true } =
      .error "Telegram bot token is required when telegram_bot=True. Set TELEGRAM_BOT_TOKEN environment variable." ∧
    settings_post_init { telegram_bot := true, telegram := { bot_token := some "tok" } } =
      .ok { telegram_bot := true, telegram := { enabled := true, bot_token := some "tok" } } :=
  ⟨(settings_token_validation { telegram_bot := true }).2.1 rfl rfl,
   (settings_token_validation
     { telegram_bot := true, telegram := { bot_token := some "tok" } }).2.2 rfl rfl⟩

/-- C6: the authorization check admits every sender when the allow-list is
empty, and exactly the listed senders when it is non-empty; an unauthorized
sender gets the fixed rejection reply, with the filesystem untouched and the
handler's result independent of any transcription outcome. -/
theorem allow_list_auth :
    (∀ uid : Int, is_user_allowed [] uid = true) ∧
    (∀ (l : List Int) (uid : Int), l ≠ [] →
      (is_user_allowed l uid = true ↔ uid ∈ l)) ∧
    (∀ (l : List Int) (mb : Int) (td : String) (uid : Int) (v : VoiceMessage)
       (fs : List String) (o1 o2 : TranscriptionOutcome),
       is_user_allowed l uid = false →
       handle_voice l mb td uid v fs o1 = (fs, .unauthorized) ∧
       handle_voice l mb td uid v fs o1 = handle_voice l mb td uid v fs o2) := by
  refine ⟨fun uid => rfl, fun l uid hl => ?_, fun l mb td uid v fs o1 o2 h => ?_⟩
  · have : l.isEmpty = false := by
      cases l with
      | nil => exact absurd rfl hl
      | cons a l => rfl
    simp [is_user_allowed, this]
  · constructor <;> simp [handle_voice, h]

theorem allow_list_auth_witness :
    ([5, 6] : List Int) ≠ [] ∧ is_user_allowed [5, 6] 5 = true ∧
    is_user_allowed [5, 6] 7 = false ∧
    handle_voice [5, 6] 20 "/tmp/televoica" 7 ⟨"f", 1⟩ [] (.success "x") =
      ([], .unauthorized) :=
  ⟨by decide,
   (allow_list_auth.2.1 [5, 6] 5 (by decide)).mpr (by decide),
   by decide,
   (allow_list_auth.2.2 [5, 6] 20 "/tmp/televoica" 7 ⟨"f", 1⟩ []
     (.success "x") (.failure "y") (by decide)).1⟩

/-- C7: for an authorized sender, a declared size strictly greater than
`max_file_size_mb * 1048576` bytes is rejected with the too-large reply,
before any download (the filesystem is untouched and the result is
independent of the transcription outcome); a size equal to the limit is not
rejected. -/
theorem size_limit_check (l : List Int) (mb : Int) (td : String) (uid : Int)
    (v : VoiceMessage) (a : AudioMessage) (fs : List String)
    (o : TranscriptionOutcome)
    (hauth : is_user_allowed l uid = true) :
    (v.file_size > mb * 1048576 → handle_voice l mb td uid v fs o = (fs, .tooLarge)) ∧
    (v.file_size = mb * 1048576 → (handle_voice l mb td uid v fs o).2 ≠ .tooLarge) ∧
    (a.file_size > mb * 1048576 → handle_audio l mb td uid a fs o = (fs, .tooLarge)) ∧
    (a.file_size = mb * 1048576 → (handle_audio l mb td uid a fs o).2 ≠ .tooLarge) := by
  have hmax : max_file_size mb = mb * 1048576 := by
    unfold max_file_size
    ring
  refine ⟨fun hgt => ?_, fun heq => ?_, fun hgt => ?_, fun heq => ?_⟩
  · simp [handle_voice, hauth, hmax, hgt]
  · have hngt : ¬ v.file_size > max_file_size mb := by
      rw [hmax, heq]
      exact lt_irrefl _
    simp only [handle_voice, hauth, Bool.not_true, Bool.false_eq_true, if_false, hngt,
      if_neg hngt]
    cases o with
    | success text =>
      by_cases ht : (text == "") = true <;> simp [ht]
    | failure e => simp
  · simp [handle_audio, hauth, hmax, hgt]
  · have hngt : ¬ a.file_size > max_file_size mb := by
      rw [hmax, heq]
      exact lt_irrefl _
    simp only [handle_audio, hauth, Bool.not_true, Bool.false_eq_true, if_false, hngt,
      if_neg hngt]
    cases o with
    | success text =>
      by_cases ht : (text == "") = true <;> simp [ht]
    | failure e => simp

theorem size_limit_check_witness :
    handle_voice [] 20 "/tmp/televoica" 1 ⟨"f1", 20 * 1048576 + 1⟩ []
      (.success "hi") = ([], .tooLarge) ∧
    (handle_voice [] 20 "/tmp/televoica" 1 ⟨"f1", 20 * 1048576⟩ []
      (.success "hi")).2 ≠ .tooLarge :=
  ⟨(size_limit_check [] 20 "/tmp/televoica" 1 ⟨"f1", 20 * 1048576 + 1⟩
      ⟨"a1", 0, none⟩ [] (.success "hi") (by decide)).1 (by decide),
   (size_limit_check [] 20 "/tmp/televoica" 1 ⟨"f1", 20 * 1048576⟩
      ⟨"a1", 0, none⟩ [] (.success "hi") (by decide)).2.1 (by decide)⟩

/-- C4: layering precedence at `whisper_model` — with a config file setting
any value `w` and the `STT_WHISPER_MODEL` environment variable set to any
non-empty `v`, the resolved value is `v` (environment wins); with no
environment variable the file value `w` wins over the default; with neither,
the built-in default `"base"` stands. -/
theorem config_precedence (w v : String) (hv : v ≠ "") :
    (load_config (some ⟨"settings.json", [("whisper_model", .str w)]⟩) (fun _ => true)
       (fun k => if k == "STT_WHISPER_MODEL" then some v else none) "STT_").map
         (fun s => s.stt.whisper_model) = .ok v ∧
    (load_config (some ⟨"settings.json", [("whisper_model", .str w)]⟩) (fun _ => true)
       (fun _ => none) "STT_").map (fun s => s.stt.whisper_model) = .ok w ∧
    (load_config none (fun _ => true) (fun _ => none) "STT_").map
      (fun s => s.stt.whisper_model) = .ok "base" := by
  obtain ⟨data⟩ := v
  cases data with
  | nil => exact absurd rfl hv
  | cons c cs => exact ⟨rfl, rfl, rfl⟩

theorem config_precedence_witness :
    ("large" : String) ≠ "" ∧
    (load_config (some ⟨"settings.json", [("whisper_model", .str "medium")]⟩)
       (fun _ => true)
       (fun k => if k == "STT_WHISPER_MODEL" then some "large" else none) "STT_").map
         (fun s => s.stt.whisper_model) = .ok "large" :=
  ⟨by decide, (config_precedence "medium" "large" (by decide)).1⟩

end Televoica
